import Mathlib

/-!
Shallow embedding of the two-phase BFS enactor
(src/b40c/graph/bfs/enactor_two_phase.cuh) and of the random-graph builder
(src/unnamed/part_000).

Device-side effects (kernel launches, allocation failures, queue-length
queries) are supplied by explicit environment records: the host control
flow is translated faithfully from the source, while each fallible runtime
call reads its outcome from the environment.  Collaborator code that is not
under src/ (the base enactor, the barrier and statistics lifetimes, the
kernels, the CSR materializer) is modelled from the spec and marked as such.
-/

/-- CUDA runtime status codes, as far as the translated control flow
distinguishes them: success, the distinct configuration error produced for
untuned hardware generations, and arbitrary other nonzero error codes. -/
inductive CudaError where
  | success
  | invalidConfiguration
  | err (n : Nat)
deriving DecidableEq, Repr

/-- The single-GPU graph slice fields read by the enactor: node count and
the device arrays bound as textures (represented by device pointer ids). -/
structure GraphSlice where
  nodes : Int
  d_visited_mask : Nat
  d_row_offsets : Nat
deriving DecidableEq, Repr

/-- Host-visible state of an EnactorTwoPhase object.  Host-mapped words
(done, iteration) are Option-valued: none models a NULL pointer, some v a
live allocation currently holding v. -/
structure EnactorState where
  done : Option Int
  throttleEventCreated : Bool
  iteration : Option Int
  barrierSize : Option Int
  expandStatsSize : Option Int
  contractStatsSize : Option Int
  total_runtimes : Nat
  total_lifetimes : Nat
  total_queued : Nat
  boundVisitedMask : Option Nat
  boundRowOffsets : Option Nat
deriving DecidableEq, Repr

/-- The constructor EnactorTwoPhase(DEBUG): NULL handshake pointers and
total_queued = 0.  The C++ constructor leaves total_runtimes and
total_lifetimes uninitialized, so they are junk parameters here. -/
def EnactorTwoPhaseInit (junk_runtimes junk_lifetimes : Nat) : EnactorState :=
  { done := none
    throttleEventCreated := false
    iteration := none
    barrierSize := none
    expandStatsSize := none
    contractStatsSize := none
    total_runtimes := junk_runtimes
    total_lifetimes := junk_lifetimes
    total_queued := 0
    boundVisitedMask := none
    boundRowOffsets := none }

/-- Outcomes of each fallible runtime call made by Setup, plus the junk
contents of freshly allocated (uninitialized) pinned words. -/
structure SetupEnv where
  hostAllocDone : CudaError
  getDevPtrDone : CudaError
  eventCreate : CudaError
  hostAllocIter : CudaError
  getDevPtrIter : CudaError
  barrierSetupErr : CudaError
  expandStatsErr : CudaError
  contractStatsErr : CudaError
  bindBitmask : CudaError
  bindRowOffsets : CudaError
  doneJunk : Int
  iterJunk : Int
deriving DecidableEq, Repr

/-- Which allocation / binding effects a Setup call actually performed. -/
structure SetupTrace where
  allocatedDone : Bool
  createdThrottleEvent : Bool
  allocatedIteration : Bool
  allocatedBarrier : Bool
  allocatedExpandStats : Bool
  allocatedContractStats : Bool
  resetCounters : Bool
  boundBitmaskTex : Bool
  boundRowOffsetsTex : Bool
deriving DecidableEq, Repr

def emptySetupTrace : SetupTrace :=
  { allocatedDone := false
    createdThrottleEvent := false
    allocatedIteration := false
    allocatedBarrier := false
    allocatedExpandStats := false
    allocatedContractStats := false
    resetCounters := false
    boundBitmaskTex := false
    boundRowOffsetsTex := false }

/-- Modelled from the spec: GlobalBarrierLifetime.Setup(groupCount) and
KernelRuntimeStatsLifetime.Setup(groupCount), whose code is not under src/.
Long-lived allocations are idempotent: the first call allocates state sized
for the given concurrency, later calls are no-ops for those.  The result is
(status, new size state, whether an allocation was performed). -/
def lifetimeSetup (e : CudaError) (cur : Option Int) (gridSize : Int) :
    CudaError × Option Int × Bool :=
  if cur = none then
    if e = CudaError.success then (CudaError.success, some gridSize, true)
    else (e, none, false)
  else (CudaError.success, cur, false)

/-- Tail of Setup (source lines 158-187): reset the per-search statistics
and completion flag, then bind the bitmask and row-offsets textures.  Any
binding failure breaks out of the do-while and is returned. -/
def setupResetAndBind (env : SetupEnv) (s : EnactorState) (t : SetupTrace)
    (slice : GraphSlice) : CudaError × EnactorState × SetupTrace :=
  let s := { s with iteration := some 0, total_runtimes := 0, total_lifetimes := 0,
                    total_queued := 0, done := some 0 }
  let t := { t with resetCounters := true }
  if env.bindBitmask ≠ CudaError.success then (env.bindBitmask, s, t)
  else
    let s := { s with boundVisitedMask := some slice.d_visited_mask }
    let t := { t with boundBitmaskTex := true }
    if env.bindRowOffsets ≠ CudaError.success then (env.bindRowOffsets, s, t)
    else
      (CudaError.success,
       { s with boundRowOffsets := some slice.d_row_offsets },
       { t with boundRowOffsetsTex := true })

/-- Middle of Setup (source lines 151-156): global-barrier and kernel-stats
lifetime setup, each breaking out of the do-while on failure. -/
def setupBarrierAndStats (env : SetupEnv) (s : EnactorState) (t : SetupTrace)
    (slice : GraphSlice) (expand_grid_size contract_grid_size : Int) :
    CudaError × EnactorState × SetupTrace :=
  let r1 := lifetimeSetup env.barrierSetupErr s.barrierSize expand_grid_size
  let s := { s with barrierSize := r1.2.1 }
  let t := { t with allocatedBarrier := r1.2.2 }
  if r1.1 ≠ CudaError.success then (r1.1, s, t)
  else
    let r2 := lifetimeSetup env.expandStatsErr s.expandStatsSize expand_grid_size
    let s := { s with expandStatsSize := r2.2.1 }
    let t := { t with allocatedExpandStats := r2.2.2 }
    if r2.1 ≠ CudaError.success then (r2.1, s, t)
    else
      let r3 := lifetimeSetup env.contractStatsErr s.contractStatsSize contract_grid_size
      let s := { s with contractStatsSize := r3.2.1 }
      let t := { t with allocatedContractStats := r3.2.2 }
      if r3.1 ≠ CudaError.success then (r3.1, s, t)
      else setupResetAndBind env s t slice

/-- Iteration block of Setup (source lines 137-149): lazily allocate the
host-mapped iteration word and map it into device space. -/
def setupIterBlock (env : SetupEnv) (s : EnactorState) (t : SetupTrace)
    (slice : GraphSlice) (expand_grid_size contract_grid_size : Int) :
    CudaError × EnactorState × SetupTrace :=
  if s.iteration = none then
    if env.hostAllocIter ≠ CudaError.success then (env.hostAllocIter, s, t)
    else
      let s := { s with iteration := some env.iterJunk }
      let t := { t with allocatedIteration := true }
      if env.getDevPtrIter ≠ CudaError.success then (env.getDevPtrIter, s, t)
      else setupBarrierAndStats env s t slice expand_grid_size contract_grid_size
  else setupBarrierAndStats env s t slice expand_grid_size contract_grid_size

/-- EnactorTwoPhase.Setup (source lines 107-192).  The do-while(0) chain of
break-on-error resource operations, translated step by step. -/
def Setup (env : SetupEnv) (s : EnactorState) (slice : GraphSlice)
    (expand_grid_size : Int) (contract_grid_size : Int) :
    CudaError × EnactorState × SetupTrace :=
  if s.done = none then
    if env.hostAllocDone ≠ CudaError.success then (env.hostAllocDone, s, emptySetupTrace)
    else
      let s := { s with done := some env.doneJunk }
      let t := { emptySetupTrace with allocatedDone := true }
      if env.getDevPtrDone ≠ CudaError.success then (env.getDevPtrDone, s, t)
      else if env.eventCreate ≠ CudaError.success then (env.eventCreate, s, t)
      else
        setupIterBlock env { s with throttleEventCreated := true }
          { t with createdThrottleEvent := true } slice expand_grid_size contract_grid_size
  else setupIterBlock env s emptySetupTrace slice expand_grid_size contract_grid_size

/-- The triple returned through the reference parameters of GetStatistics. -/
structure BfsStats where
  total_queued : Nat
  search_depth : Int
  avg_duty : ℚ
deriving DecidableEq

/-- EnactorTwoPhase.GetStatistics (source lines 231-245).  Reading
iteration[0] through a NULL pointer is modelled as none. -/
def GetStatistics (s : EnactorState) : Option BfsStats :=
  match s.iteration with
  | none => none
  | some it =>
    some { total_queued := s.total_queued
           search_depth := it - 1
           avg_duty :=
             if s.total_lifetimes > 0 then
               (s.total_runtimes : ℚ) / (s.total_lifetimes : ℚ)
             else 0 }

/-- Host-visible state carried around one iteration of the while(true) loop
of EnactIterativeSearch: the value in the host-mapped iteration word, the
monotone queue index, and the running statistics totals. -/
structure LoopState where
  iteration : Int
  queue_index : Int
  total_runtimes : Nat
  total_lifetimes : Nat
  total_queued : Nat
deriving DecidableEq, Repr

/-- Which throttle call the control thread made at the throttle point. -/
inductive ThrottleAction where
  | record
  | sync
deriving DecidableEq, Repr

/-- The host-supplied arguments of one contract_atomic kernel dispatch
(source lines 423-439, in source order). -/
structure ContractDispatchArgs where
  src : Int
  iteration : Int
  num_elements : Int
  queue_index : Int
  steal_index : Int
  num_gpus : Int
deriving DecidableEq, Repr

/-- Outcomes of the fallible runtime calls and the device-side effects
observed during one iteration of the loop body.  doneValue is the content
of the host-mapped done word at the moment the control thread checks it. -/
structure LevelEnv where
  contractSyncErr : CudaError
  contractQueueLenErr : CudaError
  contractQueueLen : Nat
  contractAccumErr : CudaError
  contractRuntimes : Nat
  contractLifetimes : Nat
  eventRecordErr : CudaError
  eventSyncErr : CudaError
  doneValue : Int
  expandSyncErr : CudaError
  expandQueueLenErr : CudaError
  expandQueueLen : Nat
  expandAccumErr : CudaError
  expandRuntimes : Nat
  expandLifetimes : Nat
deriving DecidableEq, Repr

/-- Everything observable about one execution of the loop body: the value
retval holds when the body breaks or finishes, the successor state, whether
the body broke out of the loop, which kernels were dispatched with which
contract arguments, which throttle call ran, and whether done was read. -/
structure LevelResult where
  retval : CudaError
  st : LoopState
  brk : Bool
  contractDispatched : Bool
  contractArgs : ContractDispatchArgs
  throttleAction : Option ThrottleAction
  doneChecked : Bool
  expandDispatched : Bool
deriving DecidableEq, Repr

/-- Expansion tail of the loop body (source lines 467-499): dispatch the
expand kernel, optional debug sync, advance queue index and iteration, and
the INSTRUMENT block.  Source line 490 tests the queue-length status but
does not assign it to retval, so that failure breaks with retval still
cudaSuccess; the accumulate failure two lines later is assigned. -/
def expandPhase (DEBUG INSTRUMENT : Bool) (env : LevelEnv)
    (cargs : ContractDispatchArgs) (ta : ThrottleAction) (s : LoopState) : LevelResult :=
  if DEBUG = true ∧ env.expandSyncErr ≠ CudaError.success then
    { retval := env.expandSyncErr, st := s, brk := true, contractDispatched := true,
      contractArgs := cargs, throttleAction := some ta, doneChecked := true,
      expandDispatched := true }
  else
    let s := { s with queue_index := s.queue_index + 1, iteration := s.iteration + 1 }
    if INSTRUMENT = true then
      if env.expandQueueLenErr ≠ CudaError.success then
        { retval := CudaError.success, st := s, brk := true, contractDispatched := true,
          contractArgs := cargs, throttleAction := some ta, doneChecked := true,
          expandDispatched := true }
      else
        let s := { s with total_queued := s.total_queued + env.expandQueueLen }
        if env.expandAccumErr ≠ CudaError.success then
          { retval := env.expandAccumErr, st := s, brk := true, contractDispatched := true,
            contractArgs := cargs, throttleAction := some ta, doneChecked := true,
            expandDispatched := true }
        else
          { retval := CudaError.success,
            st := { s with total_runtimes := s.total_runtimes + env.expandRuntimes,
                           total_lifetimes := s.total_lifetimes + env.expandLifetimes },
            brk := false, contractDispatched := true, contractArgs := cargs,
            throttleAction := some ta, doneChecked := true, expandDispatched := true }
    else
      { retval := CudaError.success, st := s, brk := false, contractDispatched := true,
        contractArgs := cargs, throttleAction := some ta, doneChecked := true,
        expandDispatched := true }

/-- Throttle point and completion check of the loop body (source lines
457-465): record the throttle event when iteration[0] is odd, block on it
when even, then break out of the loop if done[0] is set. -/
def throttlePhase (DEBUG INSTRUMENT : Bool) (env : LevelEnv)
    (cargs : ContractDispatchArgs) (s : LoopState) : LevelResult :=
  let ta := if s.iteration % 2 = 1 then ThrottleAction.record else ThrottleAction.sync
  let terr := if s.iteration % 2 = 1 then env.eventRecordErr else env.eventSyncErr
  if terr ≠ CudaError.success then
    { retval := terr, st := s, brk := true, contractDispatched := true,
      contractArgs := cargs, throttleAction := some ta, doneChecked := false,
      expandDispatched := false }
  else if env.doneValue ≠ 0 then
    { retval := CudaError.success, st := s, brk := true, contractDispatched := true,
      contractArgs := cargs, throttleAction := some ta, doneChecked := true,
      expandDispatched := false }
  else expandPhase DEBUG INSTRUMENT env cargs ta s

/-- One full iteration of the while(true) loop body of EnactIterativeSearch
(source lines 420-500): contract dispatch, optional debug sync, queue-index
advance, contract INSTRUMENT block, throttle, done check, expansion. -/
def levelStep (DEBUG INSTRUMENT : Bool) (env : LevelEnv) (src : Int)
    (s : LoopState) : LevelResult :=
  let cargs : ContractDispatchArgs :=
    { src := src, iteration := s.iteration, num_elements := 0,
      queue_index := s.queue_index, steal_index := s.queue_index, num_gpus := 1 }
  if DEBUG = true ∧ env.contractSyncErr ≠ CudaError.success then
    { retval := env.contractSyncErr, st := s, brk := true, contractDispatched := true,
      contractArgs := cargs, throttleAction := none, doneChecked := false,
      expandDispatched := false }
  else
    let s := { s with queue_index := s.queue_index + 1 }
    if INSTRUMENT = true then
      if env.contractQueueLenErr ≠ CudaError.success then
        { retval := env.contractQueueLenErr, st := s, brk := true,
          contractDispatched := true, contractArgs := cargs, throttleAction := none,
          doneChecked := false, expandDispatched := false }
      else if env.contractAccumErr ≠ CudaError.success then
        { retval := env.contractAccumErr, st := s, brk := true,
          contractDispatched := true, contractArgs := cargs, throttleAction := none,
          doneChecked := false, expandDispatched := false }
      else
        throttlePhase DEBUG INSTRUMENT env cargs
          { s with total_runtimes := s.total_runtimes + env.contractRuntimes,
                   total_lifetimes := s.total_lifetimes + env.contractLifetimes }
    else throttlePhase DEBUG INSTRUMENT env cargs s

/-- Modelled from the spec: the contract kernel (two_phase/contract_atomic,
code not under src/) consults the current device-side frontier length via
the work-progress counters keyed by queue index; the host-supplied element
count is not consulted.  wp maps queue index to counter value. -/
def contractKernelNumElements (wp : Int → Nat) (args : ContractDispatchArgs) : Nat :=
  wp args.queue_index

/-- The while(true) loop of EnactIterativeSearch run with explicit fuel
(the source loop has no iteration cap; exhausted fuel returns the current
retval, which is cudaSuccess).  envs gives each level its environment. -/
def iterLoop (DEBUG INSTRUMENT : Bool) (envs : Nat → LevelEnv) (src : Int) :
    Nat → Nat → LoopState → CudaError × LoopState
  | 0, _, s => (CudaError.success, s)
  | fuel + 1, k, s =>
    let r := levelStep DEBUG INSTRUMENT (envs k) src s
    if r.brk then (r.retval, r.st)
    else iterLoop DEBUG INSTRUMENT envs src fuel (k + 1) r.st

/-- Modelled from the spec: EnactorBase.MaxGridSize (code not under src/).
The base enactor supplies a default group-count computation given desired
occupancy and an optional cap: a non-positive request selects full
occupancy across all multiprocessors, while a positive request is used as
given (the spec notes that the source performs no validation of the
requested count against hardware residency). -/
def MaxGridSize (smCount ctaOccupancy : Nat) (max_grid_size : Int) : Int :=
  if max_grid_size ≤ 0 then ((smCount * ctaOccupancy : Nat) : Int) else max_grid_size

/-- Outcomes of the fallible runtime calls made by the fused search after
Setup: the debug-mode synchronize after the single-grid kernel and the
statistics accumulation, with its deltas. -/
structure FusedEnv where
  setup : SetupEnv
  kernelSyncErr : CudaError
  accumErr : CudaError
  accumRuntimes : Nat
  accumLifetimes : Nat
  accumQueued : Nat
deriving DecidableEq, Repr

/-- What a fused-search call returned and whether the single-grid kernel
was dispatched, and with which grid size. -/
structure FusedResult where
  retval : CudaError
  kernelDispatched : Bool
  grid_size : Int
deriving DecidableEq, Repr

/-- The policy-templated EnactFusedSearch (source lines 254-321): compute
grid size, lazy Setup (contract grid size defaulted to 0), dispatch the
single-grid kernel, optional debug sync, optional stats accumulation. -/
def EnactFusedSearchTuned (DEBUG INSTRUMENT : Bool) (env : FusedEnv)
    (smCount ctaOccupancy : Nat) (s : EnactorState) (slice : GraphSlice)
    (max_grid_size : Int) : FusedResult × EnactorState :=
  let grid_size := MaxGridSize smCount ctaOccupancy max_grid_size
  let r := Setup env.setup s slice grid_size 0
  if r.1 ≠ CudaError.success then
    ({ retval := r.1, kernelDispatched := false, grid_size := grid_size }, r.2.1)
  else
    let s1 := r.2.1
    if DEBUG = true ∧ env.kernelSyncErr ≠ CudaError.success then
      ({ retval := env.kernelSyncErr, kernelDispatched := true, grid_size := grid_size }, s1)
    else if INSTRUMENT = true then
      if env.accumErr ≠ CudaError.success then
        ({ retval := env.accumErr, kernelDispatched := true, grid_size := grid_size }, s1)
      else
        ({ retval := CudaError.success, kernelDispatched := true, grid_size := grid_size },
         { s1 with total_runtimes := s1.total_runtimes + env.accumRuntimes,
                   total_lifetimes := s1.total_lifetimes + env.accumLifetimes,
                   total_queued := s1.total_queued + env.accumQueued })
    else
      ({ retval := CudaError.success, kernelDispatched := true, grid_size := grid_size }, s1)

/-- The dispatching EnactFusedSearch (source lines 330-367): on SM 2.0 or
newer, select the fused tuning policy (CTA_OCCUPANCY = 8) and delegate;
otherwise report the untuned-architecture configuration error without any
setup or dispatch. -/
def EnactFusedSearch (DEBUG INSTRUMENT : Bool) (env : FusedEnv)
    (device_sm_version smCount : Nat) (s : EnactorState) (slice : GraphSlice)
    (max_grid_size : Int) : FusedResult × EnactorState :=
  if device_sm_version ≥ 200 then
    EnactFusedSearchTuned DEBUG INSTRUMENT env smCount 8 s slice max_grid_size
  else
    ({ retval := CudaError.invalidConfiguration, kernelDispatched := false,
       grid_size := 0 }, s)

/-- The policy-templated EnactIterativeSearch (source lines 376-506):
compute the two grid sizes, lazy Setup, then run the while(true) loop from
iteration[0] = 0 and queue index 0, writing the loop totals back into the
enactor state.  fuel bounds the modelled loop. -/
def EnactIterativeSearchTuned (DEBUG INSTRUMENT : Bool) (senv : SetupEnv)
    (envs : Nat → LevelEnv) (fuel : Nat) (expandOccupancy contractOccupancy smCount : Nat)
    (s : EnactorState) (slice : GraphSlice) (src : Int) (max_grid_size : Int) :
    CudaError × EnactorState :=
  let expand_grid_size := MaxGridSize smCount expandOccupancy max_grid_size
  let contract_grid_size := MaxGridSize smCount contractOccupancy max_grid_size
  let r := Setup senv s slice expand_grid_size contract_grid_size
  if r.1 ≠ CudaError.success then (r.1, r.2.1)
  else
    let s1 := r.2.1
    let ls : LoopState :=
      { iteration := (s1.iteration.getD 0), queue_index := 0,
        total_runtimes := s1.total_runtimes, total_lifetimes := s1.total_lifetimes,
        total_queued := s1.total_queued }
    let lr := iterLoop DEBUG INSTRUMENT envs src fuel 0 ls
    (lr.1,
     { s1 with iteration := some lr.2.iteration,
               total_runtimes := lr.2.total_runtimes,
               total_lifetimes := lr.2.total_lifetimes,
               total_queued := lr.2.total_queued })

/-- The dispatching EnactIterativeSearch (source lines 515-610): on SM 2.0
or newer, select the expand and contract tuning policies (CTA_OCCUPANCY = 8
for both) and delegate; otherwise report the untuned-architecture
configuration error.  The Bool in the result records whether the tuned path
(setup and dispatches) was entered at all. -/
def EnactIterativeSearch (DEBUG INSTRUMENT : Bool) (senv : SetupEnv)
    (envs : Nat → LevelEnv) (fuel : Nat) (device_sm_version smCount : Nat)
    (s : EnactorState) (slice : GraphSlice) (src : Int) (max_grid_size : Int) :
    CudaError × EnactorState × Bool :=
  if device_sm_version ≥ 200 then
    let r := EnactIterativeSearchTuned DEBUG INSTRUMENT senv envs fuel 8 8 smCount
      s slice src max_grid_size
    (r.1, r.2, true)
  else (CudaError.invalidConfiguration, s, false)

/-- One COO edge tuple, as built by the random-edge loop. -/
structure CooEdgeTuple where
  row : Int
  col : Int
  val : Int
deriving DecidableEq, Repr

/-- The forward random edges of BuildRandomGraph (source lines 77-87):
edge i is (RandomNode(nodes), RandomNode(nodes), 1), with the random draws
supplied by the oracles rr and rc. -/
def cooForward (edges : Nat) (rr rc : Nat → Int) : List CooEdgeTuple :=
  (List.range edges).map (fun i => { row := rr i, col := rc i, val := 1 })

/-- The full COO list: the forward edges followed, when undirected, by the
reversed copy written at offset edges. -/
def cooAll (edges : Nat) (rr rc : Nat → Int) (undirected : Bool) : List CooEdgeTuple :=
  if undirected then
    cooForward edges rr rc ++
      (cooForward edges rr rc).map (fun t => { row := t.col, col := t.row, val := 1 })
  else cooForward edges rr rc

/-- The graph object as far as BuildRandomGraph observes it: the node count
recorded by FromCoo, the COO edges it was built from, and whether Free()
has been called on it. -/
structure CsrGraphModel where
  nodes : Int
  coo : List CooEdgeTuple
  freed : Bool
deriving DecidableEq, Repr

/-- Modelled from the spec: CsrGraph.FromCoo (CSR materialization from an
edge list, an external collaborator not under src/) records the supplied
node count on the graph object. -/
def fromCoo (coo : List CooEdgeTuple) (nodes : Int) : CsrGraphModel :=
  { nodes := nodes, coo := coo, freed := false }

/-- What BuildRandomGraph returns: the status code, the (possibly
reassigned) source vertex, and the constructed graph if construction was
reached. -/
structure BuildResult where
  ret : Int
  src : Int
  graph : Option CsrGraphModel
deriving DecidableEq, Repr

/-- BuildRandomGraph (source part_000 lines 55-108): reject negative node
or edge counts, build the COO list and materialize the CSR graph, then
either draw a random source (src == -1, oracle randSrc) or validate the
given source, freeing the graph and returning -1 when it is out of range. -/
def BuildRandomGraph (nodes edges src : Int) (rr rc : Nat → Int)
    (randSrc : Int) (undirected : Bool) : BuildResult :=
  if nodes < 0 ∨ edges < 0 then { ret := -1, src := src, graph := none }
  else
    let csr_graph := fromCoo (cooAll edges.toNat rr rc undirected) nodes
    if src = -1 then { ret := 0, src := randSrc, graph := some csr_graph }
    else if src < 0 ∨ src > csr_graph.nodes then
      { ret := -1, src := src, graph := some { csr_graph with freed := true } }
    else { ret := 0, src := src, graph := some csr_graph }

/-- A Setup environment in which every runtime call succeeds. -/
def allOkSetupEnv : SetupEnv :=
  { hostAllocDone := CudaError.success
    getDevPtrDone := CudaError.success
    eventCreate := CudaError.success
    hostAllocIter := CudaError.success
    getDevPtrIter := CudaError.success
    barrierSetupErr := CudaError.success
    expandStatsErr := CudaError.success
    contractStatsErr := CudaError.success
    bindBitmask := CudaError.success
    bindRowOffsets := CudaError.success
    doneJunk := 7
    iterJunk := 9 }

/-- The proposition that every runtime call made by Setup succeeds. -/
def setupEnvOk (e : SetupEnv) : Prop :=
  e.hostAllocDone = CudaError.success ∧
  e.getDevPtrDone = CudaError.success ∧
  e.eventCreate = CudaError.success ∧
  e.hostAllocIter = CudaError.success ∧
  e.getDevPtrIter = CudaError.success ∧
  e.barrierSetupErr = CudaError.success ∧
  e.expandStatsErr = CudaError.success ∧
  e.contractStatsErr = CudaError.success ∧
  e.bindBitmask = CudaError.success ∧
  e.bindRowOffsets = CudaError.success

instance (e : SetupEnv) : Decidable (setupEnvOk e) := by
  unfold setupEnvOk
  infer_instance

/-- A small concrete graph slice. -/
def okSlice : GraphSlice := { nodes := 5, d_visited_mask := 1, d_row_offsets := 2 }

/-- A freshly constructed enactor with concrete junk statistics. -/
def freshState : EnactorState := EnactorTwoPhaseInit 3 4

/-- A level environment in which every runtime call succeeds, the frontier
is never empty at the done check, and all observed quantities are zero. -/
def allOkLevelEnv : LevelEnv :=
  { contractSyncErr := CudaError.success
    contractQueueLenErr := CudaError.success
    contractQueueLen := 0
    contractAccumErr := CudaError.success
    contractRuntimes := 0
    contractLifetimes := 0
    eventRecordErr := CudaError.success
    eventSyncErr := CudaError.success
    doneValue := 0
    expandSyncErr := CudaError.success
    expandQueueLenErr := CudaError.success
    expandQueueLen := 0
    expandAccumErr := CudaError.success
    expandRuntimes := 0
    expandLifetimes := 0 }

/-- A fused-search environment in which every runtime call succeeds. -/
def allOkFusedEnv : FusedEnv :=
  { setup := allOkSetupEnv
    kernelSyncErr := CudaError.success
    accumErr := CudaError.success
    accumRuntimes := 0
    accumLifetimes := 0
    accumQueued := 0 }

/-- The loop state at loop entry after a successful Setup. -/
def initLoopState : LoopState :=
  { iteration := 0, queue_index := 0, total_runtimes := 0, total_lifetimes := 0,
    total_queued := 0 }

/-- Claim C1 (refuted; the code lacks the guard the claim asserts).  On an
SM 2.0 device with 14 multiprocessors and the fused tuning policy
(CTA_OCCUPANCY = 8) the concurrent-residency limit is 14 * 8 = 112, yet a
request of max_grid_size = 100000 is not rejected: EnactFusedSearch
dispatches the single-grid kernel with grid size 100000 and returns
cudaSuccess, not cudaErrorInvalidConfiguration. -/
theorem C1_fused_launches_when_oversubscribed :
    (EnactFusedSearch false false allOkFusedEnv 200 14 freshState okSlice 100000).1.kernelDispatched = true ∧
    (EnactFusedSearch false false allOkFusedEnv 200 14 freshState okSlice 100000).1.grid_size = 100000 ∧
    14 * 8 < 100000 ∧
    (EnactFusedSearch false false allOkFusedEnv 200 14 freshState okSlice 100000).1.retval = CudaError.success := by
  decide

/-- Claim C2: for every hardware generation below the tuned threshold
(device_sm_version < 200), both EnactIterativeSearch and EnactFusedSearch
return cudaErrorInvalidConfiguration without attempting any dispatch or
resource setup (the enactor state is untouched and the tuned path is never
entered); no best-effort fallback configuration is used. -/
theorem C2_untuned_sm_rejected_without_dispatch
    (DEBUG INSTRUMENT : Bool) (fenv : FusedEnv) (senv : SetupEnv)
    (envs : Nat → LevelEnv) (fuel smCount sm : Nat)
    (s : EnactorState) (slice : GraphSlice) (src mgs : Int)
    (h : sm < 200) :
    (EnactFusedSearch DEBUG INSTRUMENT fenv sm smCount s slice mgs).1.retval =
        CudaError.invalidConfiguration ∧
    (EnactFusedSearch DEBUG INSTRUMENT fenv sm smCount s slice mgs).1.kernelDispatched = false ∧
    (EnactFusedSearch DEBUG INSTRUMENT fenv sm smCount s slice mgs).2 = s ∧
    (EnactIterativeSearch DEBUG INSTRUMENT senv envs fuel sm smCount s slice src mgs).1 =
        CudaError.invalidConfiguration ∧
    (EnactIterativeSearch DEBUG INSTRUMENT senv envs fuel sm smCount s slice src mgs).2.1 = s ∧
    (EnactIterativeSearch DEBUG INSTRUMENT senv envs fuel sm smCount s slice src mgs).2.2 = false := by
  have hn : ¬ (sm ≥ 200) := by omega
  simp [EnactFusedSearch, EnactIterativeSearch, hn]

/-- Witness for C2 at the concrete generation SM 1.3 (sm = 130). -/
theorem C2_untuned_sm_rejected_without_dispatch_witness :
    (130 : Nat) < 200 ∧
    ((EnactFusedSearch false false allOkFusedEnv 130 14 freshState okSlice 0).1.retval =
        CudaError.invalidConfiguration ∧
     (EnactFusedSearch false false allOkFusedEnv 130 14 freshState okSlice 0).1.kernelDispatched = false ∧
     (EnactFusedSearch false false allOkFusedEnv 130 14 freshState okSlice 0).2 = freshState ∧
     (EnactIterativeSearch false false allOkSetupEnv (fun _ => allOkLevelEnv) 5 130 14
        freshState okSlice 0 0).1 = CudaError.invalidConfiguration ∧
     (EnactIterativeSearch false false allOkSetupEnv (fun _ => allOkLevelEnv) 5 130 14
        freshState okSlice 0 0).2.1 = freshState ∧
     (EnactIterativeSearch false false allOkSetupEnv (fun _ => allOkLevelEnv) 5 130 14
        freshState okSlice 0 0).2.2 = false) :=
  ⟨by decide,
   C2_untuned_sm_rejected_without_dispatch false false allOkFusedEnv allOkSetupEnv
     (fun _ => allOkLevelEnv) 5 14 130 freshState okSlice 0 0 (by decide)⟩

/-- Claim C3: GetStatistics returns search_depth equal to the stored
iteration counter minus one, total_queued equal to the stored total, and
avg_duty equal to total_runtimes / total_lifetimes when total_lifetimes is
positive and exactly 0 when total_lifetimes = 0. -/
theorem C3_get_statistics_formulas (s : EnactorState) (it : Int)
    (h : s.iteration = some it) :
    ∃ stats : BfsStats, GetStatistics s = some stats ∧
      stats.total_queued = s.total_queued ∧
      stats.search_depth = it - 1 ∧
      (0 < s.total_lifetimes →
        stats.avg_duty = (s.total_runtimes : ℚ) / (s.total_lifetimes : ℚ)) ∧
      (s.total_lifetimes = 0 → stats.avg_duty = 0) := by
  refine ⟨{ total_queued := s.total_queued
            search_depth := it - 1
            avg_duty := if s.total_lifetimes > 0 then
                (s.total_runtimes : ℚ) / (s.total_lifetimes : ℚ)
              else 0 }, ?_, rfl, rfl, ?_, ?_⟩
  · simp [GetStatistics, h]
  · intro hl
    simp [hl]
  · intro hl
    simp [hl]

/-- An enactor state after a search, used to witness C3. -/
def statState : EnactorState :=
  { freshState with iteration := some 4, total_runtimes := 3, total_lifetimes := 6,
                    total_queued := 11 }

/-- Witness for C3 at a concrete post-search state. -/
theorem C3_get_statistics_formulas_witness :
    statState.iteration = some 4 ∧
    (∃ stats : BfsStats, GetStatistics statState = some stats ∧
      stats.total_queued = statState.total_queued ∧
      stats.search_depth = 4 - 1 ∧
      (0 < statState.total_lifetimes →
        stats.avg_duty = (statState.total_runtimes : ℚ) / (statState.total_lifetimes : ℚ)) ∧
      (statState.total_lifetimes = 0 → stats.avg_duty = 0)) :=
  ⟨rfl, C3_get_statistics_formulas statState 4 rfl⟩

/-- A level environment whose only failure is the post-expansion
GetQueueLength query (source line 490). -/
def droppedErrorLevelEnv : LevelEnv :=
  { allOkLevelEnv with expandQueueLenErr := CudaError.err 4 }

/-- Claim C7 (refuted by the code at one call site).  With instrumentation
enabled and every operation succeeding except the expansion-side
GetQueueLength query, the loop body breaks out of the loop, yet
EnactIterativeSearch returns cudaSuccess: source line 490 tests the status
of GetQueueLength without assigning it to retval, so this first failing
resource operation is dropped while success is reported. -/
theorem C7_expand_queue_length_failure_reports_success :
    droppedErrorLevelEnv.expandQueueLenErr = CudaError.err 4 ∧
    (levelStep false true droppedErrorLevelEnv 0 initLoopState).brk = true ∧
    (levelStep false true droppedErrorLevelEnv 0 initLoopState).retval = CudaError.success ∧
    (EnactIterativeSearchTuned false true allOkSetupEnv (fun _ => droppedErrorLevelEnv)
        10 8 8 14 freshState okSlice 0 0).1 = CudaError.success := by
  decide


/-- Advancement facts for the expansion tail alone, relative to its entry
state: a non-breaking run performs exactly one queue-index increment and
one iteration increment, and no run does more or rolls back. -/
theorem expandPhase_advance (DEBUG INSTRUMENT : Bool) (env : LevelEnv)
    (cargs : ContractDispatchArgs) (ta : ThrottleAction) (s : LoopState) :
    ((expandPhase DEBUG INSTRUMENT env cargs ta s).brk = false →
      (expandPhase DEBUG INSTRUMENT env cargs ta s).st.queue_index = s.queue_index + 1 ∧
      (expandPhase DEBUG INSTRUMENT env cargs ta s).st.iteration = s.iteration + 1) ∧
    (s.queue_index ≤ (expandPhase DEBUG INSTRUMENT env cargs ta s).st.queue_index ∧
     (expandPhase DEBUG INSTRUMENT env cargs ta s).st.queue_index ≤ s.queue_index + 1) ∧
    ((expandPhase DEBUG INSTRUMENT env cargs ta s).st.iteration = s.iteration ∨
      ((expandPhase DEBUG INSTRUMENT env cargs ta s).st.iteration = s.iteration + 1 ∧
       (expandPhase DEBUG INSTRUMENT env cargs ta s).st.queue_index = s.queue_index + 1)) := by
  unfold expandPhase
  split_ifs <;> simp

/-- Advancement facts for the throttle point onward, relative to its entry
state: the early exits keep the state, and the expansion tail adds exactly
one queue-index increment and one iteration increment when it completes. -/
theorem throttlePhase_advance (DEBUG INSTRUMENT : Bool) (env : LevelEnv)
    (cargs : ContractDispatchArgs) (s : LoopState) :
    ((throttlePhase DEBUG INSTRUMENT env cargs s).brk = false →
      (throttlePhase DEBUG INSTRUMENT env cargs s).st.queue_index = s.queue_index + 1 ∧
      (throttlePhase DEBUG INSTRUMENT env cargs s).st.iteration = s.iteration + 1) ∧
    (s.queue_index ≤ (throttlePhase DEBUG INSTRUMENT env cargs s).st.queue_index ∧
     (throttlePhase DEBUG INSTRUMENT env cargs s).st.queue_index ≤ s.queue_index + 1) ∧
    ((throttlePhase DEBUG INSTRUMENT env cargs s).st.iteration = s.iteration ∨
      ((throttlePhase DEBUG INSTRUMENT env cargs s).st.iteration = s.iteration + 1 ∧
       (throttlePhase DEBUG INSTRUMENT env cargs s).st.queue_index = s.queue_index + 1)) := by
  unfold throttlePhase
  dsimp only
  split_ifs <;>
    first
      | exact expandPhase_advance DEBUG INSTRUMENT env cargs _ s
      | simp

/-- The queue-index and iteration advancement discipline of one loop-body
execution started from state s, with result r: a completed level (brk =
false) advances the queue index by exactly 2 and the iteration counter by
exactly 1; the queue index never decreases and never grows by more than 2;
and the iteration counter advances only together with the full +2. -/
def advanceDiscipline (s : LoopState) (r : LevelResult) : Prop :=
  (r.brk = false →
    r.st.queue_index = s.queue_index + 2 ∧ r.st.iteration = s.iteration + 1) ∧
  s.queue_index ≤ r.st.queue_index ∧
  r.st.queue_index ≤ s.queue_index + 2 ∧
  (r.st.iteration = s.iteration ∨
    (r.st.iteration = s.iteration + 1 ∧ r.st.queue_index = s.queue_index + 2))

/-- Lifting of throttlePhase_advance across the contract-side queue-index
increment: invoking the throttle point from a state one increment past s
yields the full per-level discipline relative to s. -/
theorem advanceDiscipline_of_throttle (DEBUG INSTRUMENT : Bool) (env : LevelEnv)
    (cargs : ContractDispatchArgs) (s s1 : LoopState)
    (hq : s1.queue_index = s.queue_index + 1) (hi : s1.iteration = s.iteration) :
    advanceDiscipline s (throttlePhase DEBUG INSTRUMENT env cargs s1) := by
  obtain ⟨h1, ⟨h2a, h2b⟩, h3⟩ := throttlePhase_advance DEBUG INSTRUMENT env cargs s1
  refine ⟨fun hb => ?_, by omega, by omega, ?_⟩
  · obtain ⟨hx, hy⟩ := h1 hb
    omega
  · omega

/-- Claim C4: every execution of the iterative-loop body obeys the
advancement discipline: one queue-index increment after each of the two
phases (+2 per completed level), one iteration increment per completed
level, and no other change to either counter. -/
theorem C4_queue_index_advances_two_per_level (DEBUG INSTRUMENT : Bool)
    (env : LevelEnv) (src : Int) (s : LoopState) :
    advanceDiscipline s (levelStep DEBUG INSTRUMENT env src s) := by
  unfold levelStep
  dsimp only
  split_ifs <;>
    first
      | exact advanceDiscipline_of_throttle DEBUG INSTRUMENT env _ s _ rfl rfl
      | simp [advanceDiscipline]

/-- Witness for C4 on a level that completes both phases. -/
theorem C4_queue_index_advances_two_per_level_witness :
    advanceDiscipline initLoopState (levelStep false true allOkLevelEnv 0 initLoopState) :=
  C4_queue_index_advances_two_per_level false true allOkLevelEnv 0 initLoopState

/-- The expansion tail reports the throttle action it was entered with. -/
theorem expandPhase_throttleAction (DEBUG INSTRUMENT : Bool) (env : LevelEnv)
    (cargs : ContractDispatchArgs) (ta : ThrottleAction) (s : LoopState) :
    (expandPhase DEBUG INSTRUMENT env cargs ta s).throttleAction = some ta := by
  unfold expandPhase
  split_ifs <;> rfl

/-- The expansion tail runs only after the completion flag was read. -/
theorem expandPhase_doneChecked (DEBUG INSTRUMENT : Bool) (env : LevelEnv)
    (cargs : ContractDispatchArgs) (ta : ThrottleAction) (s : LoopState) :
    (expandPhase DEBUG INSTRUMENT env cargs ta s).doneChecked = true := by
  unfold expandPhase
  split_ifs <;> rfl

/-- The expansion tail always records the expand dispatch. -/
theorem expandPhase_expandDispatched (DEBUG INSTRUMENT : Bool) (env : LevelEnv)
    (cargs : ContractDispatchArgs) (ta : ThrottleAction) (s : LoopState) :
    (expandPhase DEBUG INSTRUMENT env cargs ta s).expandDispatched = true := by
  unfold expandPhase
  split_ifs <;> rfl

/-- The expansion tail passes the contract arguments through unchanged. -/
theorem expandPhase_contractArgs (DEBUG INSTRUMENT : Bool) (env : LevelEnv)
    (cargs : ContractDispatchArgs) (ta : ThrottleAction) (s : LoopState) :
    (expandPhase DEBUG INSTRUMENT env cargs ta s).contractArgs = cargs := by
  unfold expandPhase
  split_ifs <;> rfl

/-- The throttle and completion-check discipline of one loop-body execution
from state s under environment env, with result r: when the throttle point
is reached, the event is recorded exactly on odd iterations and blocked on
exactly on even iterations; the completion flag is read only after the
throttle point; a set flag makes the body break at once, without the Expand
dispatch and with retval still cudaSuccess; and Expand is dispatched only
after the flag was checked and found clear. -/
def throttleDiscipline (env : LevelEnv) (s : LoopState) (r : LevelResult) : Prop :=
  (r.throttleAction.isSome = true →
    (r.throttleAction = some ThrottleAction.record ↔ s.iteration % 2 = 1) ∧
    (r.throttleAction = some ThrottleAction.sync ↔ s.iteration % 2 = 0)) ∧
  (r.doneChecked = true → r.throttleAction.isSome = true) ∧
  (r.doneChecked = true → env.doneValue ≠ 0 →
    r.brk = true ∧ r.expandDispatched = false ∧ r.retval = CudaError.success) ∧
  (r.expandDispatched = true → r.doneChecked = true ∧ env.doneValue = 0)

/-- The throttle point onward satisfies the throttle discipline relative to
its own entry state. -/
theorem throttlePhase_discipline (DEBUG INSTRUMENT : Bool) (env : LevelEnv)
    (cargs : ContractDispatchArgs) (s : LoopState) :
    throttleDiscipline env s (throttlePhase DEBUG INSTRUMENT env cargs s) := by
  unfold throttleDiscipline throttlePhase
  dsimp only
  split_ifs <;>
    simp_all [expandPhase_throttleAction, expandPhase_doneChecked,
      expandPhase_expandDispatched]

/-- The throttle discipline only reads the iteration parity of the entry
state, so it transports along equal iteration values. -/
theorem throttleDiscipline_shift (env : LevelEnv) (s s1 : LoopState) (r : LevelResult)
    (hi : s1.iteration = s.iteration) (h : throttleDiscipline env s1 r) :
    throttleDiscipline env s r := by
  unfold throttleDiscipline at *
  rw [hi] at h
  exact h

/-- Claim C5: every execution of the iterative-loop body obeys the throttle
and completion-check discipline. -/
theorem C5_throttle_alternation_and_done_check (DEBUG INSTRUMENT : Bool)
    (env : LevelEnv) (src : Int) (s : LoopState) :
    throttleDiscipline env s (levelStep DEBUG INSTRUMENT env src s) := by
  unfold levelStep
  dsimp only
  split_ifs <;>
    first
      | exact throttleDiscipline_shift env s _ _ rfl
          (throttlePhase_discipline DEBUG INSTRUMENT env _ _)
      | simp [throttleDiscipline]

/-- Witness for C5 at an even iteration with the completion flag set. -/
theorem C5_throttle_alternation_and_done_check_witness :
    throttleDiscipline { allOkLevelEnv with doneValue := 1 } initLoopState
      (levelStep false false { allOkLevelEnv with doneValue := 1 } 0 initLoopState) :=
  C5_throttle_alternation_and_done_check false false
    { allOkLevelEnv with doneValue := 1 } 0 initLoopState

/-- The throttle point onward passes the contract arguments through. -/
theorem throttlePhase_contractArgs (DEBUG INSTRUMENT : Bool) (env : LevelEnv)
    (cargs : ContractDispatchArgs) (s : LoopState) :
    (throttlePhase DEBUG INSTRUMENT env cargs s).contractArgs = cargs := by
  unfold throttlePhase
  dsimp only
  split_ifs <;>
    first
      | exact expandPhase_contractArgs DEBUG INSTRUMENT env cargs _ s
      | rfl

/-- The loop body dispatches the contract kernel with the source vertex,
the current iteration, a zero element count, and the current queue index as
both queue and steal index. -/
theorem levelStep_contractArgs (DEBUG INSTRUMENT : Bool) (env : LevelEnv)
    (src : Int) (s : LoopState) :
    (levelStep DEBUG INSTRUMENT env src s).contractArgs =
      { src := src, iteration := s.iteration, num_elements := 0,
        queue_index := s.queue_index, steal_index := s.queue_index, num_gpus := 1 } := by
  unfold levelStep
  dsimp only
  split_ifs <;>
    first
      | exact throttlePhase_contractArgs DEBUG INSTRUMENT env _ _
      | rfl

/-- The element-count discipline of a contract dispatch from state s under
the work-progress counter table wp, with result r: the host passes the
constant 0 as the element count and the current queue index as both queue
and steal index, so the (spec-modelled) kernel-side count is the counter
keyed by the current queue index. -/
def contractCountDiscipline (wp : Int → Nat) (s : LoopState) (r : LevelResult) : Prop :=
  r.contractArgs.num_elements = 0 ∧
  r.contractArgs.queue_index = s.queue_index ∧
  r.contractArgs.steal_index = s.queue_index ∧
  contractKernelNumElements wp r.contractArgs = wp s.queue_index

/-- Claim C8: on every level the contract dispatch passes 0 (unused) as the
host-supplied element count, and the kernel consults the device-side
frontier length via the work-progress counter keyed by the queue index. -/
theorem C8_contract_count_from_device_counters (DEBUG INSTRUMENT : Bool)
    (env : LevelEnv) (src : Int) (s : LoopState) (wp : Int → Nat) :
    contractCountDiscipline wp s (levelStep DEBUG INSTRUMENT env src s) := by
  unfold contractCountDiscipline contractKernelNumElements
  rw [levelStep_contractArgs]
  exact ⟨rfl, rfl, rfl, rfl⟩

/-- The reset-and-bind tail of Setup always leaves iteration[0] = 0, even
when a later texture binding fails. -/
theorem setupResetAndBind_iteration (env : SetupEnv) (s : EnactorState)
    (t : SetupTrace) (slice : GraphSlice) :
    (setupResetAndBind env s t slice).2.1.iteration = some 0 := by
  unfold setupResetAndBind
  dsimp only
  split_ifs <;> rfl

/-- A successful barrier-and-stats stage reached the reset, so the
resulting iteration word holds 0. -/
theorem setupBarrierAndStats_success_iteration (env : SetupEnv) (s : EnactorState)
    (t : SetupTrace) (slice : GraphSlice) (eg cg : Int)
    (h : (setupBarrierAndStats env s t slice eg cg).1 = CudaError.success) :
    (setupBarrierAndStats env s t slice eg cg).2.1.iteration = some 0 := by
  unfold setupBarrierAndStats at h ⊢
  dsimp only at h ⊢
  split_ifs at h ⊢ <;>
    first
      | exact setupResetAndBind_iteration env _ _ slice
      | simp_all

/-- A successful iteration block reached the reset, so the resulting
iteration word holds 0. -/
theorem setupIterBlock_success_iteration (env : SetupEnv) (s : EnactorState)
    (t : SetupTrace) (slice : GraphSlice) (eg cg : Int)
    (h : (setupIterBlock env s t slice eg cg).1 = CudaError.success) :
    (setupIterBlock env s t slice eg cg).2.1.iteration = some 0 := by
  unfold setupIterBlock at h ⊢
  dsimp only at h ⊢
  split_ifs at h ⊢ <;>
    first
      | exact setupBarrierAndStats_success_iteration env _ _ slice eg cg h
      | simp_all

/-- After any successful Setup call the iteration word is allocated and
holds 0. -/
theorem Setup_success_iteration (env : SetupEnv) (s : EnactorState)
    (slice : GraphSlice) (eg cg : Int)
    (h : (Setup env s slice eg cg).1 = CudaError.success) :
    (Setup env s slice eg cg).2.1.iteration = some 0 := by
  unfold Setup at h ⊢
  dsimp only at h ⊢
  split_ifs at h ⊢ <;>
    first
      | exact setupIterBlock_success_iteration env _ _ slice eg cg h
      | simp_all

/-- Claim C9: the constructor leaves the iteration pointer NULL and
GetStatistics reads iteration[0] unconditionally, so calling GetStatistics
on a freshly constructed enactor dereferences a null pointer (modelled as
the none result); after the first successful Setup the iteration counter is
allocated (holding 0) and GetStatistics returns a value. -/
theorem C9_get_statistics_null_before_setup (jr jl : Nat) (env : SetupEnv)
    (slice : GraphSlice) (eg cg : Int)
    (hok : (Setup env (EnactorTwoPhaseInit jr jl) slice eg cg).1 = CudaError.success) :
    (EnactorTwoPhaseInit jr jl).iteration = none ∧
    GetStatistics (EnactorTwoPhaseInit jr jl) = none ∧
    (Setup env (EnactorTwoPhaseInit jr jl) slice eg cg).2.1.iteration = some 0 ∧
    (GetStatistics ((Setup env (EnactorTwoPhaseInit jr jl) slice eg cg).2.1)).isSome = true := by
  have h := Setup_success_iteration env (EnactorTwoPhaseInit jr jl) slice eg cg hok
  refine ⟨rfl, rfl, h, ?_⟩
  simp [GetStatistics, h]

/-- Witness for C9 at a concrete fresh enactor and all-success Setup. -/
theorem C9_get_statistics_null_before_setup_witness :
    (Setup allOkSetupEnv (EnactorTwoPhaseInit 3 4) okSlice 8 8).1 = CudaError.success ∧
    ((EnactorTwoPhaseInit 3 4).iteration = none ∧
     GetStatistics (EnactorTwoPhaseInit 3 4) = none ∧
     (Setup allOkSetupEnv (EnactorTwoPhaseInit 3 4) okSlice 8 8).2.1.iteration = some 0 ∧
     (GetStatistics ((Setup allOkSetupEnv (EnactorTwoPhaseInit 3 4) okSlice 8 8).2.1)).isSome = true) :=
  ⟨by decide, C9_get_statistics_null_before_setup 3 4 allOkSetupEnv okSlice 8 8 (by decide)⟩

/-- The trace of a first Setup call on a fresh enactor: every long-lived
allocation performed, counters reset, both textures bound. -/
def fullAllocTrace : SetupTrace :=
  { allocatedDone := true, createdThrottleEvent := true, allocatedIteration := true,
    allocatedBarrier := true, allocatedExpandStats := true, allocatedContractStats := true,
    resetCounters := true, boundBitmaskTex := true, boundRowOffsetsTex := true }

/-- The trace of a later Setup call: no allocation, only the per-search
reset and the two texture rebinds. -/
def rebindOnlyTrace : SetupTrace :=
  { emptySetupTrace with resetCounters := true, boundBitmaskTex := true,
                         boundRowOffsetsTex := true }

/-- The enactor state produced by a first, fully successful Setup call. -/
def firstSetupState (s : EnactorState) (slice : GraphSlice) (eg cg : Int) : EnactorState :=
  { s with done := some 0, throttleEventCreated := true, iteration := some 0,
           barrierSize := some eg, expandStatsSize := some eg, contractStatsSize := some cg,
           total_runtimes := 0, total_lifetimes := 0, total_queued := 0,
           boundVisitedMask := some slice.d_visited_mask,
           boundRowOffsets := some slice.d_row_offsets }

/-- A fully successful Setup on a fresh enactor allocates everything,
resets the counters and binds both textures. -/
theorem Setup_first_call (env : SetupEnv) (s : EnactorState) (slice : GraphSlice)
    (eg cg : Int) (henv : setupEnvOk env)
    (hdone : s.done = none) (hiter : s.iteration = none) (hbar : s.barrierSize = none)
    (hes : s.expandStatsSize = none) (hcs : s.contractStatsSize = none) :
    Setup env s slice eg cg =
      (CudaError.success, firstSetupState s slice eg cg, fullAllocTrace) := by
  obtain ⟨e1, e2, e3, e4, e5, e6, e7, e8, e9, e10⟩ := henv
  simp [Setup, setupIterBlock, setupBarrierAndStats, setupResetAndBind, lifetimeSetup,
        emptySetupTrace, firstSetupState, fullAllocTrace, hdone, hiter, hbar, hes, hcs,
        e1, e2, e3, e4, e5, e6, e7, e8, e9, e10]

/-- A fully successful Setup on an already-initialized enactor performs no
allocation: it only resets the per-search counters and rebinds the
textures. -/
theorem Setup_later_call (env : SetupEnv) (s : EnactorState) (slice : GraphSlice)
    (eg cg : Int) (d i b x c : Int) (henv : setupEnvOk env)
    (hdone : s.done = some d) (hiter : s.iteration = some i)
    (hbar : s.barrierSize = some b) (hes : s.expandStatsSize = some x)
    (hcs : s.contractStatsSize = some c) :
    Setup env s slice eg cg =
      (CudaError.success,
       { s with iteration := some 0, total_runtimes := 0, total_lifetimes := 0,
                total_queued := 0, done := some 0,
                boundVisitedMask := some slice.d_visited_mask,
                boundRowOffsets := some slice.d_row_offsets },
       rebindOnlyTrace) := by
  obtain ⟨e1, e2, e3, e4, e5, e6, e7, e8, e9, e10⟩ := henv
  simp [Setup, setupIterBlock, setupBarrierAndStats, setupResetAndBind, lifetimeSetup,
        emptySetupTrace, rebindOnlyTrace, hdone, hiter, hbar, hes, hcs,
        e1, e2, e3, e4, e5, e6, e7, e8, e9, e10]

/-- The long-lived allocations a Setup call may perform, all performed. -/
def setupAllocatesAll (t : SetupTrace) : Prop :=
  t.allocatedDone = true ∧ t.createdThrottleEvent = true ∧ t.allocatedIteration = true ∧
  t.allocatedBarrier = true ∧ t.allocatedExpandStats = true ∧ t.allocatedContractStats = true

/-- The long-lived allocations a Setup call may perform, none performed. -/
def setupAllocatesNone (t : SetupTrace) : Prop :=
  t.allocatedDone = false ∧ t.createdThrottleEvent = false ∧ t.allocatedIteration = false ∧
  t.allocatedBarrier = false ∧ t.allocatedExpandStats = false ∧ t.allocatedContractStats = false

/-- The per-search effects every Setup call must have: iteration = 0,
totals = 0, completion flag cleared, and both read-mostly structures bound
to the given graph slice. -/
def setupResetsAndBinds (slice : GraphSlice) (s : EnactorState) (t : SetupTrace) : Prop :=
  s.iteration = some 0 ∧ s.total_runtimes = 0 ∧ s.total_lifetimes = 0 ∧
  s.total_queued = 0 ∧ s.done = some 0 ∧ t.resetCounters = true ∧
  s.boundVisitedMask = some slice.d_visited_mask ∧
  s.boundRowOffsets = some slice.d_row_offsets

/-- Claim C6: on a fresh enactor a successful Setup performs every
long-lived allocation (done flag, iteration counter, throttle event,
global-barrier state, both kernel-stats lifetimes); a second successful
Setup performs none of them; and both calls reset the per-search counters
to zero, clear the completion flag, and (re)bind the visited-mask and
row-offset structures of the given slice. -/
theorem C6_setup_idempotent_allocations (env1 env2 : SetupEnv) (s : EnactorState)
    (slice slice2 : GraphSlice) (eg cg eg2 cg2 : Int)
    (h1 : setupEnvOk env1) (h2 : setupEnvOk env2)
    (hdone : s.done = none) (hiter : s.iteration = none) (hbar : s.barrierSize = none)
    (hes : s.expandStatsSize = none) (hcs : s.contractStatsSize = none) :
    setupAllocatesAll (Setup env1 s slice eg cg).2.2 ∧
    setupResetsAndBinds slice (Setup env1 s slice eg cg).2.1 (Setup env1 s slice eg cg).2.2 ∧
    setupAllocatesNone
      (Setup env2 (Setup env1 s slice eg cg).2.1 slice2 eg2 cg2).2.2 ∧
    setupResetsAndBinds slice2
      (Setup env2 (Setup env1 s slice eg cg).2.1 slice2 eg2 cg2).2.1
      (Setup env2 (Setup env1 s slice eg cg).2.1 slice2 eg2 cg2).2.2 := by
  have hA := Setup_first_call env1 s slice eg cg h1 hdone hiter hbar hes hcs
  have hB := Setup_later_call env2 (Setup env1 s slice eg cg).2.1 slice2 eg2 cg2
    0 0 eg eg cg h2
    (by rw [hA]; rfl) (by rw [hA]; rfl) (by rw [hA]; rfl) (by rw [hA]; rfl) (by rw [hA]; rfl)
  rw [hB, hA]
  simp [setupAllocatesAll, setupAllocatesNone, setupResetsAndBinds,
        firstSetupState, fullAllocTrace, rebindOnlyTrace, emptySetupTrace]

/-- A second concrete graph slice, to witness rebinding to new storage. -/
def okSlice2 : GraphSlice := { nodes := 7, d_visited_mask := 5, d_row_offsets := 6 }

/-- Witness for C6: two successful Setup calls on a fresh enactor with two
different slices. -/
theorem C6_setup_idempotent_allocations_witness :
    setupEnvOk allOkSetupEnv ∧ freshState.done = none ∧
    (setupAllocatesAll (Setup allOkSetupEnv freshState okSlice 8 8).2.2 ∧
     setupResetsAndBinds okSlice (Setup allOkSetupEnv freshState okSlice 8 8).2.1
       (Setup allOkSetupEnv freshState okSlice 8 8).2.2 ∧
     setupAllocatesNone
       (Setup allOkSetupEnv (Setup allOkSetupEnv freshState okSlice 8 8).2.1 okSlice2 8 8).2.2 ∧
     setupResetsAndBinds okSlice2
       (Setup allOkSetupEnv (Setup allOkSetupEnv freshState okSlice 8 8).2.1 okSlice2 8 8).2.1
       (Setup allOkSetupEnv (Setup allOkSetupEnv freshState okSlice 8 8).2.1 okSlice2 8 8).2.2) :=
  ⟨by decide, rfl,
   C6_setup_idempotent_allocations allOkSetupEnv allOkSetupEnv freshState okSlice okSlice2
     8 8 8 8 (by decide) (by decide) rfl rfl rfl rfl rfl⟩

/-- The status and cleanup discipline of BuildRandomGraph for inputs nodes,
edges, src, with result r: negative sizes fail with -1; an explicit source
out of the accepted range fails with -1 after freeing the constructed
graph; a source exactly equal to nodes (one past the last valid vertex id,
nodes - 1) is nevertheless accepted with status 0 and no free; and the only
status values are 0 (success) and -1 (failure). -/
def buildRandomGraphDiscipline (nodes edges src : Int) (r : BuildResult) : Prop :=
  ((nodes < 0 ∨ edges < 0) → r.ret = -1) ∧
  (0 ≤ nodes → 0 ≤ edges → src ≠ -1 → (src < 0 ∨ src > nodes) →
    r.ret = -1 ∧ ∃ g, r.graph = some g ∧ g.freed = true) ∧
  (0 ≤ nodes → 0 ≤ edges → src = nodes →
    r.ret = 0 ∧ ∃ g, r.graph = some g ∧ g.freed = false) ∧
  (r.ret = 0 ∨ r.ret = -1)

/-- Claim C10: BuildRandomGraph obeys the status and cleanup discipline on
every input: all failure paths return -1 (freeing the graph when it was
already constructed), success returns 0, and the range check accepts the
off-by-one source src = nodes. -/
theorem C10_build_random_graph_validation (nodes edges src : Int)
    (rr rc : Nat → Int) (randSrc : Int) (und : Bool) :
    buildRandomGraphDiscipline nodes edges src
      (BuildRandomGraph nodes edges src rr rc randSrc und) := by
  unfold buildRandomGraphDiscipline BuildRandomGraph fromCoo
  dsimp only
  split_ifs <;> simp_all <;> omega

/-- Witness for C10 at the boundary source src = nodes = 5. -/
theorem C10_build_random_graph_validation_witness :
    buildRandomGraphDiscipline 5 0 5
      (BuildRandomGraph 5 0 5 (fun _ => 0) (fun _ => 0) 0 false) :=
  C10_build_random_graph_validation 5 0 5 (fun _ => 0) (fun _ => 0) 0 false
